import Mathlib

/-!
Verification development for the X tweet monitor service.

The definitions below are a shallow embedding of the Python sources:
`src/x/twitter_monitor.py`, `src/x/xtracker_client.py`, `src/x/dingtalk.py`
and `src/main.py`. Network effects are replaced by explicit parameters
(an oracle giving the outcome of each HTTP attempt, or the list of
per-mirror fetch results in the order the shuffled loop visits them).
-/

namespace XMon

/-- Embeds the `Tweet` record of `src/x/twitter_monitor.py` restricted to the
fields the monitoring pipeline inspects: the identifier string used as the
ordering and deduplication key, plus the content used to tell records apart. -/
structure Tweet where
  tweet_id : String
  content : String
deriving DecidableEq

namespace TwitterMonitor

/-- Embeds the mirror loop of `get_latest_tweets` (twitter_monitor.py lines
170-188): mirrors are visited in the shuffled order given by the input list of
per-mirror fetch results (a failed mirror, transport or parse, yields `[]`);
the loop breaks at the first mirror whose result is non-empty. Returns the
collected tweets together with the number of mirrors actually contacted. -/
def try_mirrors : List (List Tweet) → List Tweet × Nat
  | [] => ([], 0)
  | r :: rs =>
    if r.isEmpty then
      let p := try_mirrors rs
      (p.1, p.2 + 1)
    else (r, 1)

/-- Embeds the duplicate-removal pass of `get_latest_tweets` (lines 193-199):
keep the first occurrence of each tweet identifier, tracking seen ids. -/
def dedupe_aux (seen : List String) : List Tweet → List Tweet
  | [] => []
  | t :: ts =>
    if t.tweet_id ∈ seen then dedupe_aux seen ts
    else t :: dedupe_aux (t.tweet_id :: seen) ts

/-- Lexicographic strict order on character lists by code point: exactly the
comparison Python applies to the id strings in `sort(key=..., reverse=True)`. -/
def char_list_lt : List Char → List Char → Bool
  | [], [] => false
  | [], _ :: _ => true
  | _ :: _, [] => false
  | c :: cs, d :: ds =>
    if c.toNat < d.toNat then true
    else if d.toNat < c.toNat then false
    else char_list_lt cs ds

/-- Python string comparison `a < b`: lexicographic by code point. -/
def str_lt (a b : String) : Bool := char_list_lt a.data b.data

/-- Stable insertion step for descending order on the raw id string. Embeds
the comparison performed by `unique_tweets.sort(key=lambda x: x.tweet_id,
reverse=True)` (line 202): Python compares the id strings lexicographically
by code point. -/
def insert_desc (x : Tweet) : List Tweet → List Tweet
  | [] => [x]
  | y :: ys =>
    if str_lt x.tweet_id y.tweet_id then y :: insert_desc x ys
    else x :: y :: ys

/-- Stable sort of tweets by id string, descending, embedding line 202 of
twitter_monitor.py. After deduplication the keys are distinct, so any
correct descending sort produces the same list Python produces. -/
def sort_desc_by_id : List Tweet → List Tweet
  | [] => []
  | x :: xs => insert_desc x (sort_desc_by_id xs)

/-- Embeds `TwitterMonitor.get_latest_tweets` (lines 166-204): try mirrors in
the given order until one yields tweets, deduplicate by id, sort by the id
string descending, truncate to `max_tweets`. -/
def get_latest_tweets (results : List (List Tweet)) (max_tweets : Nat) : List Tweet :=
  (sort_desc_by_id (dedupe_aux [] (try_mirrors results).1)).take max_tweets

/-- Trace of one call to `TwitterMonitor._make_request`: how many HTTP
attempts were issued, the sleep durations performed between attempts, and
the returned value (`none` when all retries were exhausted). -/
structure ReqTrace where
  attempts : Nat
  sleeps : List Nat
  result : Option Nat
deriving DecidableEq

/-- Embeds the retry loop of `TwitterMonitor._make_request` (twitter_monitor.py
lines 73-86). The oracle gives the outcome of the HTTP attempt with the given
index (`none` is a raised `RequestException`, covering transport failures and
the non-2xx statuses raised by `raise_for_status`). On failure before the last
attempt the code sleeps `retry_delay * (attempt + 1)` seconds; on the last
attempt it returns `None`. The fuel argument is the number of attempts left. -/
def make_request_aux (oracle : Nat → Option Nat) (retry_delay : Nat) :
    Nat → Nat → ReqTrace
  | _, 0 => ⟨0, [], none⟩
  | attempt, 1 =>
    match oracle attempt with
    | some r => ⟨1, [], some r⟩
    | none => ⟨1, [], none⟩
  | attempt, fuel + 2 =>
    match oracle attempt with
    | some r => ⟨1, [], some r⟩
    | none =>
      let tr := make_request_aux oracle retry_delay (attempt + 1) (fuel + 1)
      ⟨tr.attempts + 1, retry_delay * (attempt + 1) :: tr.sleeps, tr.result⟩

/-- Embeds `TwitterMonitor._make_request`: run the retry loop from attempt 0
with `max_retries` attempts available. -/
def make_request (oracle : Nat → Option Nat) (max_retries retry_delay : Nat) :
    ReqTrace :=
  make_request_aux oracle retry_delay 0 max_retries

end TwitterMonitor

namespace DingTalk

/-- Outcome of a single webhook POST attempt in `DingTalkClient._send_request`
(dingtalk.py lines 31-60). `transport` covers every raised exception: a
`RequestException` (connection failure or the non-2xx status raised by
`raise_for_status`) and the generic exception branch (for example a JSON
decode failure) — the code handles all of them identically. `appResp c`
is a parsed JSON body whose `errcode` field equals `c`. -/
inductive SendOutcome where
  | transport
  | appResp (errcode : Int)
deriving DecidableEq

/-- Whether an attempt outcome is the success case of the code, that is a
parsed response whose `errcode` equals 0 (dingtalk.py line 45). -/
def outcome_ok : SendOutcome → Bool
  | SendOutcome.appResp c => c == 0
  | SendOutcome.transport => false

/-- Embeds the retry loop of `DingTalkClient._send_request` (lines 31-62):
on a response with `errcode == 0` return `True` immediately; on any failure
(nonzero `errcode`, transport error, or other exception) sleep `2 ^ attempt`
seconds when more attempts remain, and return `False` after the loop.
Returns the final boolean, the number of attempts issued, and the sleeps. -/
def send_request_aux (o : Nat → SendOutcome) : Nat → Nat → Bool × Nat × List Nat
  | _, 0 => (false, 0, [])
  | attempt, 1 =>
    if outcome_ok (o attempt) then (true, 1, []) else (false, 1, [])
  | attempt, fuel + 2 =>
    if outcome_ok (o attempt) then (true, 1, [])
    else
      let r := send_request_aux o (attempt + 1) (fuel + 1)
      (r.1, r.2.1 + 1, 2 ^ attempt :: r.2.2)

/-- Embeds `DingTalkClient._send_request`: run the retry loop from attempt 0
with `max_retries` attempts available. -/
def send_request (o : Nat → SendOutcome) (max_retries : Nat) :
    Bool × Nat × List Nat :=
  send_request_aux o 0 max_retries

end DingTalk

/-- JSON values, as decoded by `response.json()` in xtracker_client.py.
Numbers are modelled as integers (the statistics payloads carry counts). -/
inductive Json where
  | null
  | bool (b : Bool)
  | num (n : Int)
  | str (s : String)
  | arr (xs : List Json)
  | obj (kvs : List (String × Json))

namespace XTracker

/-- Whether the first character list is a prefix of the second. -/
def chars_start : List Char → List Char → Bool
  | [], _ => true
  | _ :: _, [] => false
  | c :: cs, d :: ds => c == d && chars_start cs ds

/-- Whether the first character list occurs contiguously inside the second:
the substring test Python performs for `key in some_string`. -/
def chars_sub (xs : List Char) : List Char → Bool
  | [] => xs.isEmpty
  | y :: ys => chars_start xs (y :: ys) || chars_sub xs ys

/-- Python truthiness of a JSON value, used by `if not data:` checks. -/
def py_truthy : Json → Bool
  | Json.null => false
  | Json.bool b => b
  | Json.num n => n != 0
  | Json.str s => s != ""
  | Json.arr xs => !xs.isEmpty
  | Json.obj kvs => !kvs.isEmpty

/-- Python membership test `key in data` for a string key. On a mapping it
tests key membership, on a list it tests element equality with the string,
on a string it is a substring test; on any other value Python raises
`TypeError`, modelled as `Except.error`. -/
def py_contains (k : String) : Json → Except Unit Bool
  | Json.obj kvs => Except.ok (kvs.any (fun p => p.1 == k))
  | Json.arr xs =>
    Except.ok (xs.any (fun x => match x with
      | Json.str s => s == k
      | _ => false))
  | Json.str s => Except.ok (chars_sub k.data s.data)
  | _ => Except.error ()

/-- Python subscript `data[key]` for a string key: defined on mappings
(raising `KeyError` on a missing key); on every other value it raises
(`TypeError`), modelled as `Except.error`. -/
def py_get_item (k : String) : Json → Except Unit Json
  | Json.obj kvs =>
    match kvs.find? (fun p => p.1 == k) with
    | some p => Except.ok p.2
    | none => Except.error ()
  | _ => Except.error ()

/-- Python `dict.get(key, default)` on a mapping value; only applied to
values already known to be mappings. -/
def py_dict_get (kvs : List (String × Json)) (k : String) (dflt : Json) : Json :=
  match kvs.find? (fun p => p.1 == k) with
  | some p => p.2
  | none => dflt

/-- Python `int(x)` coercion: integers pass through, booleans become 0 or 1,
numeric strings are parsed; anything else raises, modelled as an error. -/
def py_int : Json → Except Unit Int
  | Json.num n => Except.ok n
  | Json.bool b => Except.ok (if b then 1 else 0)
  | Json.str s =>
    match s.toInt? with
    | some n => Except.ok n
    | none => Except.error ()
  | _ => Except.error ()

/-- Embeds the response-shape dispatch inside `XTrackerClient._make_request`
(xtracker_client.py lines 44-50): a list with at least one element yields its
first element, a mapping is used directly, any other shape (including the
empty list) yields `None`. -/
def parse_response_shape (data : Json) : Option Json :=
  match data with
  | Json.arr (x :: _) => some x
  | Json.arr [] => none
  | Json.obj kvs => some (Json.obj kvs)
  | _ => none

/-- Canonical statistics record built by `XTrackerClient.get_user_stats`
(lines 80-140). The `username`, `updated_at` wall-clock field and the string
renderings stored for `description` and `profile_image_url` carry no logic;
the description and image fields are kept as the raw JSON values they are
rendered from, and the derived following-to-followers ratio is kept as the
exact pair (numerator, denominator) of the float division. -/
structure Stats where
  followers : Int
  following : Int
  tweets : Int
  verified : Option Bool
  description : Option Json
  profile_image_url : Option Json
  growth : Option (Int × Int × Int)
  ratioPair : Int × Int
  raw_data : Json

/-- Embeds one `followersCount / followers / stats.followers`-style elif
chain of `get_user_stats` (for example lines 89-96): check the camel-case
key, then the plain key, then the plain key nested under `stats`, defaulting
to 0; `int(...)` coercion failures and `in` on a non-container raise. -/
def extract_count (d : Json) (camel plain : String) : Except Unit Int := do
  let hasCamel ← py_contains camel d
  if hasCamel then
    py_int (← py_get_item camel d)
  else
    let hasPlain ← py_contains plain d
    if hasPlain then
      py_int (← py_get_item plain d)
    else
      let hasNest ← py_contains "stats" d
      if hasNest then
        let sub ← py_get_item "stats" d
        let hasSub ← py_contains plain sub
        if hasSub then
          py_int (← py_get_item plain sub)
        else
          pure 0
      else
        pure 0

/-- Embeds the body of the `try` block of `get_user_stats` (lines 80-140)
applied to the value returned by `_make_request`. Any raised exception is
reported as `Except.error` and turned into `None` by the caller. -/
def build_stats (d : Json) : Except Unit Stats := do
  let followers ← extract_count d "followersCount" "followers"
  let following ← extract_count d "followingCount" "following"
  let tweets ← extract_count d "tweetsCount" "tweets"
  let hasVerified ← py_contains "verified" d
  let verified ←
    if hasVerified then do
      pure (some (py_truthy (← py_get_item "verified" d)))
    else
      pure none
  let hasDescription ← py_contains "description" d
  let description ←
    if hasDescription then do
      pure (some (← py_get_item "description" d))
    else
      pure none
  let hasImage ← py_contains "profileImageUrl" d
  let profile_image_url ←
    if hasImage then do
      pure (some (← py_get_item "profileImageUrl" d))
    else
      pure none
  let hasGrowth ← py_contains "growth" d
  let growth ←
    if hasGrowth then do
      let g ← py_get_item "growth" d
      match g with
      | Json.obj kvs => do
        let g24 ← py_int (py_dict_get kvs "followers_24h" (Json.num 0))
        let g7 ← py_int (py_dict_get kvs "followers_7d" (Json.num 0))
        let g30 ← py_int (py_dict_get kvs "followers_30d" (Json.num 0))
        pure (some (g24, g7, g30))
      | _ => pure none
    else
      pure none
  pure { followers, following, tweets, verified, description, profile_image_url,
         growth, ratioPair := (following, max followers 1), raw_data := d }

/-- Embeds `XTrackerClient.get_user_stats` applied to a decoded response body:
`_make_request` dispatches on the shape (`parse_response_shape`), the caller
returns `None` for a falsy payload (`if not data:`), then builds the stats
record, catching every exception as `None`. -/
def get_user_stats (body : Json) : Option Stats :=
  match parse_response_shape body with
  | none => none
  | some d =>
    if py_truthy d then
      match build_stats d with
      | Except.ok s => some s
      | Except.error _ => none
    else
      none

end XTracker

namespace MainService

/-- Embeds one username iteration of `XMonitorService.monitor_tweets`
(main.py lines 75-97), abstracting the fetch into the candidate id list
(newest first, as returned by `get_latest_tweets`). Returns the updated
stored marker and the list of tweet ids for which a notification is sent.
An empty candidate list is the "cannot fetch" branch: state untouched,
nothing sent. Otherwise only `tweets[0]` is examined: when the stored
marker is truthy (present and non-empty, Python `if last_id`) and equals
the newest id, nothing happens; in every other case the marker is set to
the newest id and a single notification for that tweet is sent. -/
def monitor_tweets_step (last_id : Option String) (ids : List String) :
    Option String × List String :=
  match ids with
  | [] => (last_id, [])
  | cur :: _ =>
    match last_id with
    | some l => if l ≠ "" ∧ cur = l then (some l, []) else (some cur, [cur])
    | none => (some cur, [cur])

/-- Embeds one username iteration of `XMonitorService.monitor_xtracker_stats`
(main.py lines 140-161), abstracting the fetch into `fetched` (`none` when
`get_user_stats` failed). The stored snapshot defaults its followers count to
0 when absent (`self.last_stats.get(username, {}).get('followers', 0)`).
Returns the stored snapshot after the iteration and whether a notification
was sent: the code sends and persists only when the followers counts differ,
and otherwise leaves the stored snapshot untouched. -/
def monitor_stats_step (stored : Option XTracker.Stats)
    (fetched : Option XTracker.Stats) : Option XTracker.Stats × Bool :=
  match fetched with
  | none => (stored, false)
  | some s =>
    let last_followers : Int :=
      match stored with
      | some l => l.followers
      | none => 0
    if s.followers ≠ last_followers then (some s, true) else (stored, false)

end MainService

/-- Sample tweet used in witnesses. -/
def tA : Tweet := ⟨"1", "a"⟩

/-- Second sample tweet used in witnesses. -/
def tB : Tweet := ⟨"2", "b"⟩

/-- Sample stored stats snapshot: 1000 followers, 500 following, 10 tweets. -/
def snapA : XTracker.Stats :=
  { followers := 1000, following := 500, tweets := 10, verified := none,
    description := none, profile_image_url := none, growth := none,
    ratioPair := (500, 1000), raw_data := Json.obj [] }

/-- Sample fetched stats snapshot: same followers as `snapA` but the
secondary fields changed (600 following, 11 tweets). -/
def snapB : XTracker.Stats :=
  { followers := 1000, following := 600, tweets := 11, verified := none,
    description := none, profile_image_url := none, growth := none,
    ratioPair := (600, 1000), raw_data := Json.obj [] }

section Lemmas

open TwitterMonitor

/-- Membership after a descending insertion comes from the inserted element
or the original list. -/
theorem mem_insert_desc {a x : Tweet} :
    ∀ {l : List Tweet}, a ∈ insert_desc x l → a = x ∨ a ∈ l := by
  intro l
  induction l with
  | nil =>
    intro h
    rw [insert_desc] at h
    exact Or.inl (List.mem_singleton.mp h)
  | cons y ys ih =>
    intro h
    rw [insert_desc] at h
    split at h
    · rcases List.mem_cons.mp h with h1 | h1
      · exact Or.inr (List.mem_cons.mpr (Or.inl h1))
      · rcases ih h1 with h2 | h2
        · exact Or.inl h2
        · exact Or.inr (List.mem_cons.mpr (Or.inr h2))
    · rcases List.mem_cons.mp h with h1 | h1
      · exact Or.inl h1
      · exact Or.inr h1

/-- The descending sort does not introduce new elements. -/
theorem mem_sort_desc_by_id {a : Tweet} :
    ∀ {l : List Tweet}, a ∈ sort_desc_by_id l → a ∈ l := by
  intro l
  induction l with
  | nil =>
    intro h
    rw [sort_desc_by_id] at h
    exact absurd h (List.not_mem_nil a)
  | cons x xs ih =>
    intro h
    rw [sort_desc_by_id] at h
    rcases mem_insert_desc h with h1 | h1
    · exact h1 ▸ List.mem_cons_self _ _
    · exact List.mem_cons.mpr (Or.inr (ih h1))

/-- Deduplication does not introduce new elements. -/
theorem mem_dedupe_aux {a : Tweet} :
    ∀ (seen : List String) (l : List Tweet), a ∈ dedupe_aux seen l → a ∈ l := by
  intro seen l
  induction l generalizing seen with
  | nil =>
    intro h
    rw [dedupe_aux] at h
    exact absurd h (List.not_mem_nil a)
  | cons t ts ih =>
    intro h
    rw [dedupe_aux] at h
    split at h
    · exact List.mem_cons.mpr (Or.inr (ih _ h))
    · rcases List.mem_cons.mp h with h1 | h1
      · exact h1 ▸ List.mem_cons_self _ _
      · exact List.mem_cons.mpr (Or.inr (ih _ h1))

/-- The mirror loop skips every leading failed mirror and stops at the first
mirror with a non-empty result, having contacted exactly the failed prefix
plus the winner. -/
theorem try_mirrors_skip_empty :
    ∀ (pre : List (List Tweet)) (r : List Tweet) (post : List (List Tweet)),
      (∀ x ∈ pre, x = []) → r ≠ [] →
      try_mirrors (pre ++ r :: post) = (r, pre.length + 1) := by
  intro pre
  induction pre with
  | nil =>
    intro r post _ hr
    have : r.isEmpty = false := by
      cases r with
      | nil => exact absurd rfl hr
      | cons a l => rfl
    simp [try_mirrors, this]
  | cons x pre ih =>
    intro r post hpre hr
    have hx : x = [] := hpre x (List.mem_cons_self _ _)
    subst hx
    have h := ih r post (fun y hy => hpre y (List.mem_cons.mpr (Or.inr hy))) hr
    simp [try_mirrors, h]

/-- When every attempt fails, the twitter retry loop starting at attempt `a`
with `f` attempts of fuel issues exactly `f` attempts, sleeps
`retry_delay * (attempt + 1)` after each non-final attempt, and returns
`none`. -/
theorem range_map_mul_shift (d a m : Nat) :
    d * (a + 1) :: (List.range m).map (fun k => d * (a + 1 + k + 1))
      = (List.range (m + 1)).map (fun k => d * (a + k + 1)) := by
  rw [List.range_succ_eq_map, List.map_cons, List.map_map]
  refine congrArg₂ _ (by ring) (List.map_congr_left (fun k _ => ?_))
  simp only [Function.comp, Nat.succ_eq_add_one]
  ring

theorem range_map_pow_shift (a m : Nat) :
    2 ^ a :: (List.range m).map (fun k => 2 ^ (a + 1 + k))
      = (List.range (m + 1)).map (fun k => 2 ^ (a + k)) := by
  rw [List.range_succ_eq_map, List.map_cons, List.map_map]
  refine congrArg₂ _ (by rw [Nat.add_zero]) (List.map_congr_left (fun k _ => ?_))
  simp only [Function.comp]
  congr 1
  omega

theorem make_request_aux_all_fail (oracle : Nat → Option Nat) (d : Nat)
    (h : ∀ k, oracle k = none) :
    ∀ (f a : Nat), make_request_aux oracle d a f
      = ⟨f, (List.range (f - 1)).map (fun k => d * (a + k + 1)), none⟩ := by
  intro f
  induction f with
  | zero => intro a; rfl
  | succ f ih =>
    intro a
    cases f with
    | zero => rw [make_request_aux, h a]; rfl
    | succ m =>
      rw [make_request_aux, h a, ih (a + 1)]
      show ReqTrace.mk (m + 1 + 1)
          (d * (a + 1) :: (List.range m).map (fun k => d * (a + 1 + k + 1))) none
        = ReqTrace.mk (m + 1 + 1)
          ((List.range (m + 1)).map (fun k => d * (a + k + 1))) none
      rw [range_map_mul_shift d a m]

/-- An attempt outcome that is not an `errcode = 0` response is not accepted
as success by the webhook loop. -/
theorem outcome_ok_eq_false {x : DingTalk.SendOutcome}
    (h : x ≠ DingTalk.SendOutcome.appResp 0) : DingTalk.outcome_ok x = false := by
  cases x with
  | transport => rfl
  | appResp c =>
    have hc : c ≠ 0 := fun h0 => h (by rw [h0])
    simp [DingTalk.outcome_ok, hc]

/-- When the webhook loop starting at attempt `a` with fuel `f` reports
success, some attempt in the issued window returned `errcode = 0`. -/
theorem send_request_aux_true (o : Nat → DingTalk.SendOutcome) :
    ∀ (f a : Nat), (DingTalk.send_request_aux o a f).1 = true →
      ∃ i, a ≤ i ∧ i < a + f ∧ o i = DingTalk.SendOutcome.appResp 0 := by
  intro f
  induction f with
  | zero => intro a h; exact absurd h (by rw [DingTalk.send_request_aux]; simp)
  | succ f ih =>
    intro a h
    have hmain : DingTalk.outcome_ok (o a) = true →
        ∃ i, a ≤ i ∧ i < a + (f + 1) ∧ o i = DingTalk.SendOutcome.appResp 0 := by
      intro hok
      refine ⟨a, Nat.le_refl a, by omega, ?_⟩
      cases hx : o a with
      | transport => rw [hx] at hok; exact absurd hok (by simp [DingTalk.outcome_ok])
      | appResp c =>
        rw [hx] at hok
        have : c = 0 := by simpa [DingTalk.outcome_ok] using hok
        rw [this]
    by_cases hok : DingTalk.outcome_ok (o a) = true
    · exact hmain hok
    · have hf : DingTalk.outcome_ok (o a) = false := by
        exact Bool.eq_false_iff.mpr hok
      cases f with
      | zero =>
        rw [DingTalk.send_request_aux, hf] at h
        exact absurd h (by simp)
      | succ m =>
        rw [DingTalk.send_request_aux, hf] at h
        simp only [Bool.false_eq_true, if_false] at h
        rcases ih (a + 1) h with ⟨i, h1, h2, h3⟩
        exact ⟨i, by omega, by omega, h3⟩

/-- When no attempt ever returns `errcode = 0`, the webhook loop starting at
attempt `a` with fuel `f` issues exactly `f` attempts, sleeps `2 ^ attempt`
after each non-final attempt, and returns `false`. -/
theorem send_request_aux_all_fail (o : Nat → DingTalk.SendOutcome)
    (h : ∀ i, o i ≠ DingTalk.SendOutcome.appResp 0) :
    ∀ (f a : Nat), DingTalk.send_request_aux o a f
      = (false, f, (List.range (f - 1)).map (fun k => 2 ^ (a + k))) := by
  intro f
  induction f with
  | zero => intro a; rfl
  | succ f ih =>
    intro a
    cases f with
    | zero =>
      rw [DingTalk.send_request_aux, outcome_ok_eq_false (h a)]
      rfl
    | succ m =>
      rw [DingTalk.send_request_aux, outcome_ok_eq_false (h a), ih (a + 1)]
      show (false, m + 1 + 1,
            2 ^ a :: (List.range m).map (fun k => 2 ^ (a + 1 + k)))
        = (false, m + 1 + 1, (List.range (m + 1)).map (fun k => 2 ^ (a + k)))
      rw [range_map_pow_shift a m]

end Lemmas

section Claims

open TwitterMonitor

/-- C1: the claim states that `get_latest_tweets` returns the collected
tweets deduplicated, sorted by identifier descending under numeric
comparison, and truncated, so ids `["100", "99", "101"]` come out
`["101", "100", "99"]`. The code instead sorts the id strings with the
default Python string comparison, which is lexicographic: at this input the
embedded pipeline yields `["99", "101", "100"]`, not the numeric order the
claim and the code comment (newest first) require. -/
theorem get_latest_tweets_sorts_lexicographically :
    (get_latest_tweets [[⟨"100", "x"⟩, ⟨"99", "y"⟩, ⟨"101", "z"⟩]] 5).map
        Tweet.tweet_id
      = ["99", "101", "100"] ∧
    (["99", "101", "100"] : List String) ≠ ["101", "100", "99"] :=
  ⟨rfl, by decide⟩

/-- C2 counterexample: with stored marker "10" and candidates
`["12", "11", "10", "9"]` the cycle notifies only the single newest id
"12", not the claimed `["12", "11"]`; the marker does update to "12". -/
theorem monitor_marker_single_counterexample :
    (MainService.monitor_tweets_step (some "10") ["12", "11", "10", "9"]).2
      = ["12"] ∧
    (["12"] : List String) ≠ ["12", "11"] ∧
    (MainService.monitor_tweets_step (some "10") ["12", "11", "10", "9"]).1
      = some "12" :=
  ⟨rfl, by decide, rfl⟩

/-- C2 amended: when the stored marker is set (a non-empty string) and the
newest candidate id differs from it, the cycle reports exactly the single
newest candidate as new — regardless of how many candidates are newer than
the marker — and updates the marker to the newest id. -/
theorem monitor_tweets_newest_only (l cur : String) (rest : List String)
    (_hl : l ≠ "") (hne : cur ≠ l) :
    MainService.monitor_tweets_step (some l) (cur :: rest)
      = (some cur, [cur]) := by
  rw [MainService.monitor_tweets_step]
  rw [if_neg (fun hc => hne hc.2)]

/-- C2 witness: the amended statement at the concrete counterexample input. -/
theorem monitor_tweets_newest_only_witness :
    MainService.monitor_tweets_step (some "10") ["12", "11", "10", "9"]
      = (some "12", ["12"]) :=
  monitor_tweets_newest_only "10" "12" ["11", "10", "9"] (by decide) (by decide)

/-- C3 counterexample: with no stored marker and candidates
`["5", "4", "3"]`, the cycle does initialize the marker to "5" but also
sends a notification for "5", while the claim says zero new tweets and no
notification. -/
theorem monitor_first_run_counterexample :
    MainService.monitor_tweets_step none ["5", "4", "3"]
      = (some "5", ["5"]) ∧
    (["5"] : List String) ≠ ([] : List String) :=
  ⟨rfl, by decide⟩

/-- C3 amended: when no prior marker exists, the cycle initializes the
marker to the newest candidate id and sends a notification for that single
newest candidate; the push-all-on-first-run flag is never consulted by the
monitoring loop. -/
theorem monitor_tweets_first_run_notifies (cur : String) (rest : List String) :
    MainService.monitor_tweets_step none (cur :: rest) = (some cur, [cur]) :=
  rfl

/-- C4 counterexample: stored snapshot `snapA` (1000 followers, 500
following) and fetched snapshot `snapB` (1000 followers, 600 following):
no notification is sent, but contrary to the claim the fetched snapshot is
not persisted — the stored snapshot still carries 500 following while the
fetched one carries 600. -/
theorem stats_no_persist_counterexample :
    (MainService.monitor_stats_step (some snapA) (some snapB)).2 = false ∧
    ((MainService.monitor_stats_step (some snapA) (some snapB)).1).map
        XTracker.Stats.following
      = some 500 ∧
    snapB.following = 600 ∧
    (500 : Int) ≠ 600 :=
  ⟨rfl, rfl, rfl, by decide⟩

/-- C4 amended: when the fetched followers count equals the stored
followers count, no notification is sent and the stored snapshot is left
untouched — the newly fetched snapshot, including changed secondary fields,
is not persisted. -/
theorem monitor_stats_unchanged_followers (stored fetched : XTracker.Stats)
    (h : fetched.followers = stored.followers) :
    MainService.monitor_stats_step (some stored) (some fetched)
      = (some stored, false) := by
  rw [MainService.monitor_stats_step]
  simp [h]

/-- C4 witness: the amended statement at the concrete snapshots. -/
theorem monitor_stats_unchanged_witness :
    MainService.monitor_stats_step (some snapA) (some snapB)
      = (some snapA, false) :=
  monitor_stats_unchanged_followers snapA snapB rfl

/-- C5: mirrors are tried one at a time in the given (shuffled) order; with
every mirror before `r` failing (empty result) and `r` non-empty, the loop
contacts exactly the failed prefix plus the winning mirror (later mirrors
are not contacted), the result is the winner deduplicated, sorted and
truncated, and every returned tweet comes from the winning mirror. -/
theorem mirror_failover (pre post : List (List Tweet)) (r : List Tweet)
    (n : Nat) (hpre : ∀ x ∈ pre, x = []) (hr : r ≠ []) :
    (try_mirrors (pre ++ r :: post)).2 = pre.length + 1 ∧
    get_latest_tweets (pre ++ r :: post) n
      = (sort_desc_by_id (dedupe_aux [] r)).take n ∧
    ∀ tw ∈ get_latest_tweets (pre ++ r :: post) n, tw ∈ r := by
  have h := try_mirrors_skip_empty pre r post hpre hr
  refine ⟨by rw [h], ?_, ?_⟩
  · rw [get_latest_tweets, h]
  · intro tw htw
    rw [get_latest_tweets, h] at htw
    exact mem_dedupe_aux [] r (mem_sort_desc_by_id (List.take_subset n _ htw))

/-- C5 witness: one failed mirror, then a succeeding one, then an uncontacted
one. -/
theorem mirror_failover_witness :
    get_latest_tweets [[], [tA], [tB]] 5 = [tA] :=
  (mirror_failover [[]] [[tB]] [tA] 5 (by simp) (by simp)).2.1

/-- C6: a url whose requests always fail at the transport level is attempted
exactly `max_retries` times, with a sleep of `retry_delay * (attempt + 1)`
seconds between consecutive attempts (so `max_retries - 1` sleeps), and the
call then returns `none`. -/
theorem retry_bound_all_fail (oracle : Nat → Option Nat) (m d : Nat)
    (h : ∀ k, oracle k = none) :
    make_request oracle m d
      = ⟨m, (List.range (m - 1)).map (fun k => d * (k + 1)), none⟩ := by
  rw [make_request, make_request_aux_all_fail oracle d h m 0]
  have hm : (List.range (m - 1)).map (fun k => d * (0 + k + 1))
      = (List.range (m - 1)).map (fun k => d * (k + 1)) :=
    List.map_congr_left (fun k _ => by rw [Nat.zero_add])
  rw [hm]

/-- C6 witness: three attempts with base delay 5 give sleeps 5 and 10 and a
failed result. -/
theorem retry_bound_witness :
    make_request (fun _ => none) 3 5 = ⟨3, [5, 10], none⟩ :=
  retry_bound_all_fail (fun _ => none) 3 5 (fun _ => rfl)

/-- C7: webhook delivery reports success only when some attempt within the
budget returned a parsed response with `errcode = 0`; and when no attempt
does (transport failures and nonzero error codes alike), the loop issues
exactly `max_retries` attempts with `2 ^ attempt`-second sleeps between
consecutive attempts and returns `false` — the two failure kinds produce
the same trace, which depends only on where `errcode = 0` appears. -/
theorem send_request_success_and_retry (m : Nat) :
    (∀ o : Nat → DingTalk.SendOutcome,
        (DingTalk.send_request o m).1 = true →
        ∃ i, i < m ∧ o i = DingTalk.SendOutcome.appResp 0) ∧
    (∀ o : Nat → DingTalk.SendOutcome,
        (∀ i, o i ≠ DingTalk.SendOutcome.appResp 0) →
        DingTalk.send_request o m
          = (false, m, (List.range (m - 1)).map (fun k => 2 ^ k))) := by
  constructor
  · intro o h
    rcases send_request_aux_true o m 0 h with ⟨i, _, h2, h3⟩
    exact ⟨i, by omega, h3⟩
  · intro o ho
    rw [DingTalk.send_request, send_request_aux_all_fail o ho m 0]
    have hm : (List.range (m - 1)).map (fun k => 2 ^ (0 + k))
        = (List.range (m - 1)).map (fun k => 2 ^ k) :=
      List.map_congr_left (fun k _ => by rw [Nat.zero_add])
    rw [hm]

/-- C7 witness: three always-transport-failing attempts give sleeps 1 and 2
and report failure. -/
theorem send_request_witness :
    DingTalk.send_request (fun _ => DingTalk.SendOutcome.transport) 3
      = (false, 3, [1, 2]) :=
  (send_request_success_and_retry 3).2
    (fun _ => DingTalk.SendOutcome.transport) (fun _ h => nomatch h)

/-- C8: tweet change detection is idempotent — feeding the marker produced
by one cycle back into a second cycle over the same candidate list yields
no notification and leaves the marker unchanged (candidate ids are
non-empty numeric strings, so the head id is non-empty). -/
theorem monitor_tweets_idempotent (s : Option String) (ids : List String)
    (h : ∀ x, ids.head? = some x → x ≠ "") :
    MainService.monitor_tweets_step
        (MainService.monitor_tweets_step s ids).1 ids
      = ((MainService.monitor_tweets_step s ids).1, []) := by
  cases ids with
  | nil => rfl
  | cons cur rest =>
    have hcur : cur ≠ "" := h cur rfl
    cases s with
    | none =>
      rw [MainService.monitor_tweets_step, MainService.monitor_tweets_step]
      rw [if_pos ⟨hcur, rfl⟩]
    | some l =>
      by_cases hc : l ≠ "" ∧ cur = l
      · rw [MainService.monitor_tweets_step, if_pos hc,
          MainService.monitor_tweets_step, if_pos hc]
      · rw [MainService.monitor_tweets_step, if_neg hc,
          MainService.monitor_tweets_step, if_pos ⟨hcur, rfl⟩]

/-- C8 witness: a first run over `["7"]` followed by a second run detects
nothing the second time. -/
theorem monitor_tweets_idempotent_witness :
    MainService.monitor_tweets_step
        (MainService.monitor_tweets_step none ["7"]).1 ["7"]
      = ((MainService.monitor_tweets_step none ["7"]).1, []) :=
  monitor_tweets_idempotent none ["7"]
    (fun x hx => by injection hx with h2; subst h2; decide)

/-- C9: the stats fetch uses a mapping-typed response body directly, takes
the first element of a non-empty list-typed body, and yields a parse
failure (`none`) for every other shape, the empty list included. -/
theorem response_shape_dispatch (data : Json) :
    (∀ kvs, data = Json.obj kvs →
      XTracker.parse_response_shape data = some data) ∧
    (∀ x xs, data = Json.arr (x :: xs) →
      XTracker.parse_response_shape data = some x) ∧
    ((∀ kvs, data ≠ Json.obj kvs) → (∀ x xs, data ≠ Json.arr (x :: xs)) →
      XTracker.parse_response_shape data = none) := by
  refine ⟨?_, ?_, ?_⟩
  · intro kvs hk
    subst hk
    rfl
  · intro x xs hx
    subst hx
    rfl
  · intro h1 h2
    cases data with
    | null => rfl
    | bool b => rfl
    | num n => rfl
    | str s => rfl
    | obj kvs => exact absurd rfl (h1 kvs)
    | arr xs =>
      cases xs with
      | nil => rfl
      | cons x t => exact absurd rfl (h2 x t)

/-- C9 witness: the dispatch at a concrete mapping body. -/
theorem response_shape_witness :
    XTracker.parse_response_shape (Json.obj [("followers", Json.num 7)])
      = some (Json.obj [("followers", Json.num 7)]) :=
  (response_shape_dispatch (Json.obj [("followers", Json.num 7)])).1
    [("followers", Json.num 7)] rfl

/-- C10 counterexample: the body `["abc"]` parses to the non-mapping first
element `"abc"`, which is truthy, and `get_user_stats` returns a
zero-defaulted snapshot for it — so a stats result is not produced only by
non-empty mappings. -/
theorem stats_nonmapping_result_counterexample :
    (XTracker.get_user_stats (Json.arr [Json.str "abc"])).isSome = true ∧
    XTracker.parse_response_shape (Json.arr [Json.str "abc"])
      = some (Json.str "abc") ∧
    (XTracker.get_user_stats (Json.arr [Json.str "abc"])).map
        XTracker.Stats.followers
      = some 0 :=
  ⟨rfl, rfl, rfl⟩

/-- C10 amended: `get_user_stats` returns `none` whenever the response body
fails the shape dispatch or parses to a falsy payload — in particular for
an empty list (no first element) and for an empty mapping, so an empty
mapping never yields a zero-defaulted snapshot; however truthy non-mapping
payloads also produce a (zero-defaulted) result, so results are not limited
to non-empty mappings. -/
theorem get_user_stats_falsy_none (body : Json)
    (h : ∀ d, XTracker.parse_response_shape body = some d →
      XTracker.py_truthy d = false) :
    XTracker.get_user_stats body = none := by
  rw [XTracker.get_user_stats]
  cases hp : XTracker.parse_response_shape body with
  | none => rfl
  | some d =>
    simp only [h d hp, Bool.false_eq_true, if_false]

/-- C10 witness: an empty mapping body yields `none`. -/
theorem get_user_stats_falsy_witness :
    XTracker.get_user_stats (Json.obj []) = none :=
  get_user_stats_falsy_none (Json.obj [])
    (fun d hd => by injection hd with h2; subst h2; rfl)

end Claims

end XMon
